import Mathlib

/-!
Verification development for the LXD TCP timeout subsystem
(`shared/tcp/tcp_timeouts.go`) and the expired-token cleanup task
bundled in the same source file.

The Go code is shallowly embedded: connections become an inductive type,
`time.Duration` values become natural numbers of nanoseconds, fallible
OS socket operations become functions parameterised by an explicit fault
assignment, and each run records the primitive calls it attempted so
ordering and short-circuiting are statable.
-/

/-- A raw transport handle (`*net.TCPConn`). Only its identity matters to
`ExtractConn`, so it is represented by an opaque numeric handle id. -/
structure TCPConn where
  handle : Nat
deriving DecidableEq, Repr

/-- A polymorphic network connection value (`net.Conn`). The variants
relevant to the subsystem: a raw transport (`*net.TCPConn`), a secure
transport (`*tls.Conn`) whose private `conn` field holds the inner
connection, and any other `net.Conn` implementation. -/
inductive Conn where
  | tcp (c : TCPConn)
  | tls (inner : Conn)
  | other (name : String)
deriving DecidableEq, Repr

/-- Whether the dynamic type of the value is `*tls.Conn`
(the Go type assertion `conn.(*tls.Conn)`). -/
def Conn.isTLS : Conn → Bool
  | Conn.tls _ => true
  | _ => false

/-- Whether the dynamic type of the value is `*net.TCPConn`
(the Go type assertion `c.(*net.TCPConn)`). -/
def Conn.isTCP : Conn → Bool
  | Conn.tcp _ => true
  | _ => false

/-- Error message produced when the input is not a `*tls.Conn`. -/
def errNotTLSConn : String := "Connection is not a tls.Conn"

/-- Error message produced when the recovered inner connection is not a
`*net.TCPConn`. -/
def errNotTCPConn : String := "Connection is not a net.TCPConn"

/-- Embedding of `ExtractConn` (`shared/tcp/tcp_timeouts.go`): type-assert
the input to `*tls.Conn`; on failure return the "not a tls.Conn" error.
Read the private `conn` field through reflect/unsafe (in the embedding,
pattern matching on the `tls` variant's payload); type-assert that value
to `*net.TCPConn`; on failure return the "not a net.TCPConn" error;
otherwise return the inner handle itself. The Go function performs only
reads, so it embeds as a pure total function: no socket state appears in
its type and no panic is representable. -/
def ExtractConn : Conn → Except String TCPConn
  | Conn.tls inner =>
    match inner with
    | Conn.tcp c => Except.ok c
    | _ => Except.error errNotTCPConn
  | _ => Except.error errNotTLSConn

/-- OS-level socket option state of one raw transport handle: the
`TCP_USER_TIMEOUT` value, the keepalive flag, and the keepalive period
(durations in nanoseconds, `none` when never set). -/
structure TCPState where
  userTimeoutNs : Option Nat
  keepAlive : Bool
  keepAlivePeriodNs : Option Nat
deriving DecidableEq, Repr

/-- Initial socket state: nothing configured. -/
def TCPState.init : TCPState :=
  { userTimeoutNs := none, keepAlive := false, keepAlivePeriodNs := none }

/-- A primitive socket-option call attempted on the handle. -/
inductive SockCall where
  | setUserTimeout (ns : Nat)
  | setKeepAlive (b : Bool)
  | setKeepAlivePeriod (ns : Nat)
deriving DecidableEq, Repr

/-- Fault assignment for the three OS-level operations: `some e` makes the
corresponding call fail with underlying error `e`, `none` lets it
succeed. -/
structure SockFaults where
  userTimeoutErr : Option String
  keepAliveErr : Option String
  keepAlivePeriodErr : Option String

/-- Fault assignment under which all three operations succeed. -/
def SockFaults.nofail : SockFaults :=
  { userTimeoutErr := none, keepAliveErr := none, keepAlivePeriodErr := none }

/-- Modelled from the spec: the platform-specific implementation of
`SetUserTimeout` is not part of the excerpt (spec section 9 open question).
Per its required contract it applies a bounded unacknowledged-data timeout
(`TCP_USER_TIMEOUT`) to the socket, surfacing any OS-level error. -/
def SetUserTimeout (f : SockFaults) (s : TCPState) (ns : Nat) : Except String TCPState :=
  match f.userTimeoutErr with
  | some e => Except.error e
  | none => Except.ok { s with userTimeoutNs := some ns }

/-- The `net` library's `SetKeepAlive`: enables or disables keepalive
probing, surfacing any OS-level error. -/
def SetKeepAlive (f : SockFaults) (s : TCPState) (b : Bool) : Except String TCPState :=
  match f.keepAliveErr with
  | some e => Except.error e
  | none => Except.ok { s with keepAlive := b }

/-- The `net` library's `SetKeepAlivePeriod`: sets the keepalive probe
period, surfacing any OS-level error. -/
def SetKeepAlivePeriod (f : SockFaults) (s : TCPState) (ns : Nat) : Except String TCPState :=
  match f.keepAlivePeriodErr with
  | some e => Except.error e
  | none => Except.ok { s with keepAlivePeriodNs := some ns }

/-- One second in nanoseconds (Go `time.Second` as an integer duration). -/
def secondNs : Nat := 1000000000

/-- Outcome of one `SetTimeouts` run: the returned error (`none` meaning
the Go function returned `nil`), the final socket state, and the primitive
calls attempted, in order. -/
structure SockRun where
  result : Option String
  state : TCPState
  calls : List SockCall
deriving DecidableEq, Repr

/-- Embedding of `SetTimeouts` (`shared/tcp/tcp_timeouts.go`): call
`SetUserTimeout` with `time.Second*30`, return its error if non-nil;
call `SetKeepAlive(true)`, return its error if non-nil; call
`SetKeepAlivePeriod(3*time.Second)`, return its error if non-nil;
otherwise return `nil`. Errors are returned as received, and each step
short-circuits the rest. -/
def SetTimeouts (f : SockFaults) (s0 : TCPState) : SockRun :=
  let c1 := SockCall.setUserTimeout (30 * secondNs)
  match SetUserTimeout f s0 (30 * secondNs) with
  | Except.error e => { result := some e, state := s0, calls := [c1] }
  | Except.ok s1 =>
    let c2 := SockCall.setKeepAlive true
    match SetKeepAlive f s1 true with
    | Except.error e => { result := some e, state := s1, calls := [c1, c2] }
    | Except.ok s2 =>
      let c3 := SockCall.setKeepAlivePeriod (3 * secondNs)
      match SetKeepAlivePeriod f s2 (3 * secondNs) with
      | Except.error e => { result := some e, state := s2, calls := [c1, c2, c3] }
      | Except.ok s3 => { result := none, state := s3, calls := [c1, c2, c3] }

/-- Kind of a long-running operation (`operationtype`). Besides the two
token kinds and the housekeeping kind used by the cleanup, `other`
stands for every remaining operation type. -/
inductive OpType where
  | clusterJoinToken
  | certificateAddToken
  | removeExpiredTokens
  | other (n : Nat)
deriving DecidableEq, Repr

/-- A metadata value (`any` in the Go metadata map): either a `time.Time`
(represented as unix nanoseconds) or some other dynamic value. Only the
`time.Time` case passes the Go type assertion `.(time.Time)`. -/
inductive MetaVal where
  | timeVal (t : Int)
  | strVal (s : String)
deriving DecidableEq, Repr

/-- An in-flight operation from the registry: its id, its type, and its
metadata map (first matching key wins on lookup). -/
structure Operation where
  id : String
  opType : OpType
  metadata : List (String × MetaVal)
deriving DecidableEq, Repr

/-- Metadata lookup `op.Metadata()[k]`: the value at key `k`, or `none`
when the map has no such entry. -/
def Operation.metaLookup (op : Operation) (k : String) : Option MetaVal :=
  (op.metadata.find? (fun p => p.1 == k)).map (fun p => p.2)

/-- Environment of one `autoRemoveExpiredTokens` run: the snapshot
`operations.Clone()` of the registry, the current time `time.Now()` in
unix nanoseconds, and fault assignments for `OperationCreate`, for the
housekeeping operation's `Start`, and for each `Cancel` call. -/
structure Daemon where
  registry : List Operation
  now : Int
  createErr : Option String
  startErr : Option String
  cancelErr : Operation → Option String

/-- A message emitted through the logger, with the dynamic context that
the Go call sites attach. -/
inductive LogMsg where
  | debugFailedRemoving (id : String) (err : String)
  | errorFailedStartOp (err : String)
  | infoRemoving
  | errorFailedRemove (err : String)
  | debugDone
deriving DecidableEq, Repr

/-- Outcome of one `autoRemoveExpiredTokens` run: the returned error
(`none` meaning the Go function returned `nil`), the types passed to the
`OperationCreate` calls made, the operations on which `Cancel` was
invoked (in order), and the log messages emitted (in order). -/
structure TokenRun where
  ret : Option String
  createCalls : List OpType
  cancelled : List Operation
  logs : List LogMsg

/-- The loop over `operations.Clone()` building `expiredTokenOps`: keep an
operation when its type is `ClusterJoinToken` or `CertificateAddToken`
(otherwise `continue`), its metadata entry at key "expiresAt" passes the
`time.Time` type assertion, and `time.Now().After(expiry)` holds. -/
def expiredTokenOps (d : Daemon) : List Operation :=
  d.registry.filter (fun op =>
    (op.opType == OpType.clusterJoinToken || op.opType == OpType.certificateAddToken) &&
    match op.metaLookup "expiresAt" with
    | some (MetaVal.timeVal t) => decide (t < d.now)
    | _ => false)

/-- The loop body of `opRun`: `Cancel` each collected operation, and on a
non-nil error emit a debug log entry and keep going. This returns the log
entries the loop emits, in order. -/
def cancelRunLogs (cancelErr : Operation → Option String) : List Operation → List LogMsg
  | [] => []
  | op :: rest =>
    match cancelErr op with
    | some e => LogMsg.debugFailedRemoving op.id e :: cancelRunLogs cancelErr rest
    | none => cancelRunLogs cancelErr rest

/-- Embedding of `autoRemoveExpiredTokens` (`main` package part of the
source file): collect the expired token operations; if none, return `nil`
at once. Otherwise call `OperationCreate` for a `RemoveExpiredTokens`
task operation — on error, log it and return the error. Log "Removing
expired tokens", then `Start` the operation — on error, log it and return
the error. The started operation runs `opRun`, which `Cancel`s each
collected operation, debug-logging (and otherwise ignoring) each failure,
and returns `nil`; `Wait`'s result is discarded. Log "Done removing
expired tokens" and return `nil`. -/
def autoRemoveExpiredTokens (d : Daemon) : TokenRun :=
  let expired := expiredTokenOps d
  if expired.isEmpty then
    { ret := none, createCalls := [], cancelled := [], logs := [] }
  else
    match d.createErr with
    | some e =>
      { ret := some e
        createCalls := [OpType.removeExpiredTokens]
        cancelled := []
        logs := [LogMsg.errorFailedStartOp e] }
    | none =>
      match d.startErr with
      | some e =>
        { ret := some e
          createCalls := [OpType.removeExpiredTokens]
          cancelled := []
          logs := [LogMsg.infoRemoving, LogMsg.errorFailedRemove e] }
      | none =>
        { ret := none
          createCalls := [OpType.removeExpiredTokens]
          cancelled := expired
          logs := [LogMsg.infoRemoving] ++ cancelRunLogs d.cancelErr expired ++ [LogMsg.debugDone] }

/-- A task schedule (`task.Schedule`), reduced to its firing interval in
nanoseconds. -/
structure Schedule where
  intervalNs : Nat
deriving DecidableEq, Repr

/-- The scheduler constructor `task.Every`: fire every `ns` nanoseconds. -/
def taskEvery (ns : Nat) : Schedule := { intervalNs := ns }

/-- One minute in nanoseconds (Go `time.Minute`). -/
def minuteNs : Nat := 60 * secondNs

/-- Embedding of `autoRemoveExpiredTokensTask`: the task function wraps
`autoRemoveExpiredTokens` (discarding its error), paired with the
schedule `task.Every(time.Minute)`. -/
def autoRemoveExpiredTokensTask (d : Daemon) : (Unit → TokenRun) × Schedule :=
  (fun _ => autoRemoveExpiredTokens d, taskEvery minuteNs)

/-- Fixture: an expired cluster-join token operation (expiry 100, used with
environments whose current time is 500). -/
def opJoinExpired : Operation :=
  { id := "1b2c", opType := OpType.clusterJoinToken
    metadata := [("expiresAt", MetaVal.timeVal 100)] }

/-- Fixture: a certificate-add token operation that has not expired yet. -/
def opCertFresh : Operation :=
  { id := "9f00", opType := OpType.certificateAddToken
    metadata := [("expiresAt", MetaVal.timeVal 1000)] }

/-- Fixture: a non-token operation with a long-passed expiry timestamp. -/
def opBackupOld : Operation :=
  { id := "7a11", opType := OpType.other 5
    metadata := [("expiresAt", MetaVal.timeVal 0)] }

/-- Fixture: a cluster-join token operation with no "expiresAt" entry. -/
def opJoinNoExpiry : Operation :=
  { id := "3d4e", opType := OpType.clusterJoinToken, metadata := [] }

/-- Fixture: a cluster-join token operation whose "expiresAt" entry is not
a `time.Time` value. -/
def opJoinBadExpiry : Operation :=
  { id := "5f6a", opType := OpType.clusterJoinToken
    metadata := [("expiresAt", MetaVal.strVal "yesterday")] }

/-- Fixture: a fault-free environment holding one expired token operation
among fresh, non-token and malformed ones. -/
def daemonOk : Daemon :=
  { registry := [opJoinExpired, opCertFresh, opBackupOld, opJoinNoExpiry, opJoinBadExpiry]
    now := 500, createErr := none, startErr := none, cancelErr := fun _ => none }

/-- Fixture: a fault-free environment in which no token operation has a
passed expiry. -/
def daemonQuiet : Daemon :=
  { registry := [opCertFresh, opBackupOld, opJoinNoExpiry]
    now := 500, createErr := none, startErr := none, cancelErr := fun _ => none }

/-- Fixture: an environment with one expired token operation whose
`Cancel` call fails. -/
def daemonCancelFail : Daemon :=
  { registry := [opJoinExpired], now := 500, createErr := none, startErr := none
    cancelErr := fun _ => some "db locked" }

/-- Fixture: an environment with one expired token operation in which
`OperationCreate` fails. -/
def daemonCreateFail : Daemon :=
  { registry := [opJoinExpired], now := 500, createErr := some "quota exceeded"
    startErr := none, cancelErr := fun _ => none }

/-- Helper: membership in the collected expired-token list, characterised
declaratively. -/
lemma mem_expiredTokenOps (d : Daemon) (op : Operation) :
    op ∈ expiredTokenOps d ↔
      op ∈ d.registry ∧
      (op.opType = OpType.clusterJoinToken ∨ op.opType = OpType.certificateAddToken) ∧
      ∃ t, op.metaLookup "expiresAt" = some (MetaVal.timeVal t) ∧ t < d.now := by
  unfold expiredTokenOps
  rw [List.mem_filter]
  refine and_congr_right (fun _ => ?_)
  rw [Bool.and_eq_true, Bool.or_eq_true, beq_iff_eq, beq_iff_eq]
  refine and_congr_right (fun _ => ?_)
  cases hm : op.metaLookup "expiresAt" with
  | none => simp [hm]
  | some v =>
    cases v with
    | timeVal t => simp [hm]
    | strVal s => simp [hm]

/-- Helper: every operation on which the cleanup invoked `Cancel` came
from the collected expired-token list. -/
lemma cancelled_subset_expired (d : Daemon) :
    ∀ op, op ∈ (autoRemoveExpiredTokens d).cancelled → op ∈ expiredTokenOps d := by
  intro op hmem
  unfold autoRemoveExpiredTokens at hmem
  by_cases he : (expiredTokenOps d).isEmpty
  · simp [he] at hmem
  · simp [he] at hmem
    cases hc : d.createErr with
    | some e => simp [hc] at hmem
    | none =>
      cases hs : d.startErr with
      | some e => simp [hc, hs] at hmem
      | none => simpa [hc, hs] using hmem

/-- Helper: a failed `Cancel` of a collected operation leaves its debug
log entry in the `opRun` loop's log output. -/
lemma mem_cancelRunLogs (ce : Operation → Option String) (ops : List Operation)
    (op : Operation) (e : String) (hmem : op ∈ ops) (he : ce op = some e) :
    LogMsg.debugFailedRemoving op.id e ∈ cancelRunLogs ce ops := by
  induction ops with
  | nil => cases hmem
  | cons a rest ih =>
    rcases List.mem_cons.mp hmem with h | h
    · subst h
      simp [cancelRunLogs, he]
    · cases hca : ce a with
      | some ea =>
        have : cancelRunLogs ce (a :: rest) =
            LogMsg.debugFailedRemoving a.id ea :: cancelRunLogs ce rest := by
          simp [cancelRunLogs, hca]
        rw [this]
        exact List.mem_cons.mpr (Or.inr (ih h))
      | none =>
        have : cancelRunLogs ce (a :: rest) = cancelRunLogs ce rest := by
          simp [cancelRunLogs, hca]
        rw [this]
        exact ih h

/-- C1: on a handle whose three underlying operations all succeed,
`SetTimeouts` performs, in order, exactly the calls set-user-timeout with
30 seconds, enable keepalive, set-keepalive-period with 3 seconds, leaves
the socket with those constant values applied, and returns nil. -/
theorem SetTimeouts_all_success (f : SockFaults) (s0 : TCPState)
    (h1 : f.userTimeoutErr = none) (h2 : f.keepAliveErr = none)
    (h3 : f.keepAlivePeriodErr = none) :
    SetTimeouts f s0 =
      { result := none
        state := { userTimeoutNs := some (30 * secondNs), keepAlive := true
                   keepAlivePeriodNs := some (3 * secondNs) }
        calls := [SockCall.setUserTimeout (30 * secondNs), SockCall.setKeepAlive true,
                  SockCall.setKeepAlivePeriod (3 * secondNs)] } := by
  simp [SetTimeouts, SetUserTimeout, SetKeepAlive, SetKeepAlivePeriod, h1, h2, h3]

/-- Witness for C1 at a concrete fault-free handle. -/
theorem SetTimeouts_all_success_witness :
    SetTimeouts SockFaults.nofail TCPState.init =
      { result := none
        state := { userTimeoutNs := some (30 * secondNs), keepAlive := true
                   keepAlivePeriodNs := some (3 * secondNs) }
        calls := [SockCall.setUserTimeout (30 * secondNs), SockCall.setKeepAlive true,
                  SockCall.setKeepAlivePeriod (3 * secondNs)] } :=
  SetTimeouts_all_success SockFaults.nofail TCPState.init rfl rfl rfl

/-- C2: on a secure-transport connection whose private inner connection
is a raw transport handle, `ExtractConn` returns that exact inner handle
with no error. -/
theorem ExtractConn_tls_over_tcp (c : TCPConn) :
    ExtractConn (Conn.tls (Conn.tcp c)) = Except.ok c := rfl

/-- C3: on any connection value that is not a `*tls.Conn`, `ExtractConn`
returns the not-a-tls.Conn error. The embedding is a pure total function,
so no input can panic or mutate socket state. -/
theorem ExtractConn_not_tls (conn : Conn) (h : conn.isTLS = false) :
    ExtractConn conn = Except.error errNotTLSConn := by
  cases conn with
  | tcp c => rfl
  | tls inner => simp [Conn.isTLS] at h
  | other s => rfl

/-- Witness for C3 at a concrete non-TLS connection value. -/
theorem ExtractConn_not_tls_witness :
    Conn.isTLS (Conn.other "unix-socket") = false ∧
    ExtractConn (Conn.other "unix-socket") = Except.error errNotTLSConn :=
  ⟨rfl, ExtractConn_not_tls (Conn.other "unix-socket") rfl⟩

/-- C6: on a `*tls.Conn` whose recovered private inner connection is not
a `*net.TCPConn`, `ExtractConn` returns the not-a-net.TCPConn error and
no handle. -/
theorem ExtractConn_tls_over_non_tcp (inner : Conn) (h : inner.isTCP = false) :
    ExtractConn (Conn.tls inner) = Except.error errNotTCPConn := by
  cases inner with
  | tcp c => simp [Conn.isTCP] at h
  | tls i => rfl
  | other s => rfl

/-- Witness for C6 at a concrete doubly-wrapped connection. -/
theorem ExtractConn_tls_over_non_tcp_witness :
    Conn.isTCP (Conn.tls (Conn.tcp { handle := 0 })) = false ∧
    ExtractConn (Conn.tls (Conn.tls (Conn.tcp { handle := 0 }))) =
      Except.error errNotTCPConn :=
  ⟨rfl, ExtractConn_tls_over_non_tcp (Conn.tls (Conn.tcp { handle := 0 })) rfl⟩

/-- C4: whichever step of `SetTimeouts` fails first, its error is returned
immediately, the later steps are never attempted (they are absent from the
call trace), and the effects of the steps that already succeeded are kept;
in particular, when the keepalive-enable step fails, no keepalive-period
call is made and the 30-second user timeout remains in place. -/
theorem SetTimeouts_short_circuit (f : SockFaults) (s0 : TCPState) :
    (∀ e, f.userTimeoutErr = some e →
      SetTimeouts f s0 =
        { result := some e, state := s0
          calls := [SockCall.setUserTimeout (30 * secondNs)] }) ∧
    (∀ e, f.userTimeoutErr = none → f.keepAliveErr = some e →
      SetTimeouts f s0 =
        { result := some e
          state := { s0 with userTimeoutNs := some (30 * secondNs) }
          calls := [SockCall.setUserTimeout (30 * secondNs),
                    SockCall.setKeepAlive true] }) ∧
    (∀ e, f.userTimeoutErr = none → f.keepAliveErr = none →
        f.keepAlivePeriodErr = some e →
      SetTimeouts f s0 =
        { result := some e
          state := { s0 with userTimeoutNs := some (30 * secondNs), keepAlive := true }
          calls := [SockCall.setUserTimeout (30 * secondNs), SockCall.setKeepAlive true,
                    SockCall.setKeepAlivePeriod (3 * secondNs)] }) := by
  refine ⟨?_, ?_, ?_⟩
  · intro e h1
    simp [SetTimeouts, SetUserTimeout, h1]
  · intro e h1 h2
    simp [SetTimeouts, SetUserTimeout, SetKeepAlive, h1, h2]
  · intro e h1 h2 h3
    simp [SetTimeouts, SetUserTimeout, SetKeepAlive, SetKeepAlivePeriod, h1, h2, h3]

/-- Witness for C4: a concrete handle whose keepalive-enable step fails;
the returned error is that step's, no keepalive-period call appears in
the trace, and the user timeout stays applied. -/
theorem SetTimeouts_short_circuit_witness :
    SetTimeouts
      { userTimeoutErr := none, keepAliveErr := some "connection reset"
        keepAlivePeriodErr := none } TCPState.init =
      { result := some "connection reset"
        state := { userTimeoutNs := some (30 * secondNs), keepAlive := false
                   keepAlivePeriodNs := none }
        calls := [SockCall.setUserTimeout (30 * secondNs),
                  SockCall.setKeepAlive true] } :=
  (SetTimeouts_short_circuit
    { userTimeoutErr := none, keepAliveErr := some "connection reset"
      keepAlivePeriodErr := none } TCPState.init).2.1 "connection reset" rfl rfl

/-- C5 counterexample: the same underlying OS error injected into the
user-timeout step and into the keepalive-enable step yields identical
returned errors, equal to the raw error verbatim — `SetTimeouts` attaches
no step-identifying wrapping, so the caller cannot tell which of the
three settings could not be applied. -/
theorem SetTimeouts_no_step_identity :
    (SetTimeouts
      { userTimeoutErr := some "use of closed network connection"
        keepAliveErr := none, keepAlivePeriodErr := none } TCPState.init).result =
    (SetTimeouts
      { userTimeoutErr := none
        keepAliveErr := some "use of closed network connection"
        keepAlivePeriodErr := none } TCPState.init).result ∧
    (SetTimeouts
      { userTimeoutErr := some "use of closed network connection"
        keepAliveErr := none, keepAlivePeriodErr := none } TCPState.init).result =
      some "use of closed network connection" :=
  ⟨rfl, rfl⟩

/-- C5 amended: when a step of `SetTimeouts` fails, the underlying error
is returned verbatim and unmodified — every returned error is exactly the
error of the first failing primitive, with no wrapping added. -/
theorem SetTimeouts_error_verbatim (f : SockFaults) (s0 : TCPState) (e : String)
    (h : (SetTimeouts f s0).result = some e) :
    f.userTimeoutErr = some e ∨
    (f.userTimeoutErr = none ∧ f.keepAliveErr = some e) ∨
    (f.userTimeoutErr = none ∧ f.keepAliveErr = none ∧
      f.keepAlivePeriodErr = some e) := by
  cases hu : f.userTimeoutErr with
  | some eu =>
    left
    simp [SetTimeouts, SetUserTimeout, hu] at h
    rw [h]
  | none =>
    cases hk : f.keepAliveErr with
    | some ek =>
      right; left
      refine ⟨rfl, ?_⟩
      simp [SetTimeouts, SetUserTimeout, SetKeepAlive, hu, hk] at h
      rw [h]
    | none =>
      cases hp : f.keepAlivePeriodErr with
      | some ep =>
        right; right
        refine ⟨rfl, rfl, ?_⟩
        simp [SetTimeouts, SetUserTimeout, SetKeepAlive, SetKeepAlivePeriod,
          hu, hk, hp] at h
        rw [h]
      | none =>
        exfalso
        simp [SetTimeouts, SetUserTimeout, SetKeepAlive, SetKeepAlivePeriod,
          hu, hk, hp] at h

/-- Witness for the amended C5 at a concrete failing handle. -/
theorem SetTimeouts_error_verbatim_witness :
    ({ userTimeoutErr := some "boom", keepAliveErr := none
       keepAlivePeriodErr := none } : SockFaults).userTimeoutErr = some "boom" ∨
    (({ userTimeoutErr := some "boom", keepAliveErr := none
        keepAlivePeriodErr := none } : SockFaults).userTimeoutErr = none ∧
      ({ userTimeoutErr := some "boom", keepAliveErr := none
         keepAlivePeriodErr := none } : SockFaults).keepAliveErr = some "boom") ∨
    (({ userTimeoutErr := some "boom", keepAliveErr := none
        keepAlivePeriodErr := none } : SockFaults).userTimeoutErr = none ∧
      ({ userTimeoutErr := some "boom", keepAliveErr := none
         keepAlivePeriodErr := none } : SockFaults).keepAliveErr = none ∧
      ({ userTimeoutErr := some "boom", keepAliveErr := none
         keepAlivePeriodErr := none } : SockFaults).keepAlivePeriodErr = some "boom") :=
  SetTimeouts_error_verbatim
    { userTimeoutErr := some "boom", keepAliveErr := none
      keepAlivePeriodErr := none } TCPState.init "boom" rfl

/-- C7: with the housekeeping creation and start succeeding, the cleanup
cancels exactly the registry operations of the two token kinds
(`ClusterJoinToken`, `CertificateAddToken`) whose "expiresAt" metadata is
a time that has passed; whenever it cancels anything it does so inside a
single newly created `RemoveExpiredTokens` housekeeping operation; and
the task runs on a once-per-minute schedule. -/
theorem autoRemoveExpiredTokens_cleanup (d : Daemon)
    (hc : d.createErr = none) (hs : d.startErr = none) :
    (∀ op, op ∈ (autoRemoveExpiredTokens d).cancelled ↔
      (op ∈ d.registry ∧
       (op.opType = OpType.clusterJoinToken ∨ op.opType = OpType.certificateAddToken) ∧
       ∃ t, op.metaLookup "expiresAt" = some (MetaVal.timeVal t) ∧ t < d.now)) ∧
    ((autoRemoveExpiredTokens d).cancelled ≠ [] →
      (autoRemoveExpiredTokens d).createCalls = [OpType.removeExpiredTokens]) ∧
    (autoRemoveExpiredTokensTask d).2 = taskEvery (60 * secondNs) := by
  refine ⟨?_, ?_, rfl⟩
  · intro op
    rw [← mem_expiredTokenOps d op]
    by_cases he : (expiredTokenOps d).isEmpty = true
    · have h0 : expiredTokenOps d = [] := List.isEmpty_iff.mp he
      simp [autoRemoveExpiredTokens, h0]
    · simp [autoRemoveExpiredTokens, he, hc, hs]
  · intro hne
    by_cases he : (expiredTokenOps d).isEmpty = true
    · exact absurd (by simp [autoRemoveExpiredTokens, he]) hne
    · simp [autoRemoveExpiredTokens, he, hc, hs]

/-- Witness for C7 at a concrete fault-free environment: the expired
cluster-join token operation is cancelled and the housekeeping operation
is created. -/
theorem autoRemoveExpiredTokens_cleanup_witness :
    opJoinExpired ∈ (autoRemoveExpiredTokens daemonOk).cancelled ∧
    (autoRemoveExpiredTokens daemonOk).createCalls = [OpType.removeExpiredTokens] := by
  have h := autoRemoveExpiredTokens_cleanup daemonOk rfl rfl
  have hmem : opJoinExpired ∈ (autoRemoveExpiredTokens daemonOk).cancelled :=
    (h.1 opJoinExpired).mpr
      ⟨by simp [daemonOk], Or.inl rfl, 100, by decide, by decide⟩
  exact ⟨hmem, h.2.1 (List.ne_nil_of_mem hmem)⟩

/-- C9: when no registry operation of a token kind has a passed
"expiresAt" time, the cleanup returns nil at once: no housekeeping
operation is created, nothing is cancelled, and nothing is logged. -/
theorem autoRemoveExpiredTokens_quiescent (d : Daemon)
    (h : ∀ op, op ∈ d.registry →
      (op.opType = OpType.clusterJoinToken ∨ op.opType = OpType.certificateAddToken) →
      ∀ t, op.metaLookup "expiresAt" = some (MetaVal.timeVal t) → ¬ t < d.now) :
    autoRemoveExpiredTokens d =
      { ret := none, createCalls := [], cancelled := [], logs := [] } := by
  have h0 : expiredTokenOps d = [] := by
    rw [List.eq_nil_iff_forall_not_mem]
    intro op hmem
    rcases (mem_expiredTokenOps d op).mp hmem with ⟨hr, htype, t, ht, hlt⟩
    exact h op hr htype t ht hlt
  simp [autoRemoveExpiredTokens, h0]

/-- Witness for C9 at a concrete quiescent environment holding a fresh
token, an old non-token operation, and a token without expiry. -/
theorem autoRemoveExpiredTokens_quiescent_witness :
    autoRemoveExpiredTokens daemonQuiet =
      { ret := none, createCalls := [], cancelled := [], logs := [] } := by
  apply autoRemoveExpiredTokens_quiescent
  intro op hop htype t ht
  have hops : op = opCertFresh ∨ op = opBackupOld ∨ op = opJoinNoExpiry := by
    simpa [daemonQuiet] using hop
  rcases hops with h1 | h1 | h1 <;> subst h1
  · rw [show Operation.metaLookup opCertFresh "expiresAt" =
        some (MetaVal.timeVal 1000) from by decide] at ht
    simp only [Option.some_inj, MetaVal.timeVal.injEq] at ht
    subst ht
    decide
  · rw [show opBackupOld.opType = OpType.other 5 from rfl] at htype
    simp at htype
  · rw [show Operation.metaLookup opJoinNoExpiry "expiresAt" = none from rfl] at ht
    cases ht

/-- C10: an operation whose metadata has no "expiresAt" entry that is a
`time.Time` value — the key is absent or holds a value of another type —
is never among the operations the cleanup cancels, whatever the
environment (registry, clock, faults). -/
theorem autoRemoveExpiredTokens_skips_non_time (d : Daemon) (op : Operation)
    (h : ∀ t, op.metaLookup "expiresAt" ≠ some (MetaVal.timeVal t)) :
    op ∉ (autoRemoveExpiredTokens d).cancelled := by
  intro hmem
  rcases (mem_expiredTokenOps d op).mp (cancelled_subset_expired d op hmem) with
    ⟨-, -, t, ht, -⟩
  exact h t ht

/-- Witness for C10: the token operation with a non-time "expiresAt"
value is not cancelled in the concrete environment. -/
theorem autoRemoveExpiredTokens_skips_non_time_witness :
    opJoinBadExpiry ∉ (autoRemoveExpiredTokens daemonOk).cancelled :=
  autoRemoveExpiredTokens_skips_non_time daemonOk opJoinBadExpiry
    (fun t => by
      rw [show Operation.metaLookup opJoinBadExpiry "expiresAt" =
          some (MetaVal.strVal "yesterday") from by decide]
      simp)

/-- C8 counterexample: in a concrete environment where the sole expired
token operation's `Cancel` call fails, the failure is only debug-logged
inside `opRun` and the cleanup still returns nil — the error is not
returned to the immediate caller, so a failure in this subsystem is
dropped. -/
theorem autoRemoveExpiredTokens_silent_cancel_failure :
    (autoRemoveExpiredTokens daemonCancelFail).ret = none ∧
    LogMsg.debugFailedRemoving "1b2c" "db locked" ∈
      (autoRemoveExpiredTokens daemonCancelFail).logs := by
  constructor
  · decide
  · decide

/-- C8 amended: failures of `OperationCreate` and of the housekeeping
operation's `Start` are returned to the caller; a failing `Cancel` of an
individual token operation is only debug-logged with its operation id and
error (the run still returns nil), and the `Wait` result is discarded. -/
theorem autoRemoveExpiredTokens_error_reporting (d : Daemon)
    (hne : expiredTokenOps d ≠ []) :
    (∀ e, d.createErr = some e → (autoRemoveExpiredTokens d).ret = some e) ∧
    (∀ e, d.createErr = none → d.startErr = some e →
      (autoRemoveExpiredTokens d).ret = some e) ∧
    (d.createErr = none → d.startErr = none →
      (autoRemoveExpiredTokens d).ret = none ∧
      ∀ op e, op ∈ expiredTokenOps d → d.cancelErr op = some e →
        LogMsg.debugFailedRemoving op.id e ∈ (autoRemoveExpiredTokens d).logs) := by
  have he : ¬ (expiredTokenOps d).isEmpty = true := by
    simpa [List.isEmpty_iff] using hne
  refine ⟨?_, ?_, ?_⟩
  · intro e hcr
    simp [autoRemoveExpiredTokens, he, hcr]
  · intro e hcr hst
    simp [autoRemoveExpiredTokens, he, hcr, hst]
  · intro hcr hst
    refine ⟨by simp [autoRemoveExpiredTokens, he, hcr, hst], ?_⟩
    intro op e hmem hce
    have hlogs : (autoRemoveExpiredTokens d).logs =
        [LogMsg.infoRemoving] ++ cancelRunLogs d.cancelErr (expiredTokenOps d) ++
          [LogMsg.debugDone] := by
      simp [autoRemoveExpiredTokens, he, hcr, hst]
    rw [hlogs]
    have hmr := mem_cancelRunLogs d.cancelErr (expiredTokenOps d) op e hmem hce
    simp [List.mem_append]
    tauto

/-- Witness for the amended C8: in the concrete environment where the
housekeeping creation fails, that failure is returned to the caller. -/
theorem autoRemoveExpiredTokens_error_reporting_witness :
    (autoRemoveExpiredTokens daemonCreateFail).ret = some "quota exceeded" := by
  have h := autoRemoveExpiredTokens_error_reporting daemonCreateFail (by decide)
  exact h.1 "quota exceeded" rfl
